import Mathlib

/-
  Shallow embedding of the contacts-management web API
  (src/api/main.py and src/api/schemas.py).

  The handler bodies in main.py are translated directly.  The collaborating
  modules crud, auth, database and models are not part of the sources, so the
  Credential Verifier, Token Service and Contact Store they implement are
  modelled from the specification (sections 4.1-4.3 and the data model of
  section 3); each such definition carries a doc comment starting with
  "Modelled from the spec:".
-/

namespace ContactsApi

/-- Token type claim; spec section 3: "a signed claim set
    (subject=email, expiry, type=access|refresh)". -/
inductive TokenType where
  | access
  | refresh
deriving DecidableEq, Repr

/-- The claim set of a JWT: subject (email), expiry instant, token type. -/
structure Payload where
  sub : Option String
  exp : Nat
  typ : TokenType
deriving DecidableEq, Repr

/-- Modelled from the spec: "Tokens are signed with a server secret".
    An idealized MAC: the signature determines the secret and the signed
    claim set, so a signature verifies exactly for the payload it was
    computed over. -/
structure Signature where
  secret : String
  signedPayload : Payload
deriving DecidableEq, Repr

/-- Modelled from the spec: signing a payload with a secret. -/
def signPayload (secret : String) (p : Payload) : Signature :=
  ⟨secret, p⟩

/-- A token as transmitted: a claim set together with a signature
    (possibly forged or stale, hence carried separately). -/
structure JWTToken where
  payload : Payload
  sig : Signature
deriving DecidableEq, Repr

/-- Modelled from the spec: jwt.decode(token, SECRET_KEY, algorithms=[ALGORITHM])
    from main.py line 27.  Decoding succeeds exactly when the signature
    verifies under the given secret and the token is not expired
    ("expiry is enforced at verify time", spec 4.2); otherwise it fails
    (JWTError). -/
def jwtDecode (secret : String) (now : Nat) (t : JWTToken) : Option Payload :=
  if t.sig = signPayload secret t.payload ∧ now < t.payload.exp then
    some t.payload
  else
    none

/-- User record, from schemas.User plus spec section 3:
    identifier, email, password hash, active flag. -/
structure User where
  id : Nat
  email : String
  hashed_password : String
  is_active : Bool
deriving DecidableEq, Repr

/-- Contact record, from schemas.Contact plus spec section 3: identifier,
    names, email, optional phone, optional birthday (a day index), optional
    notes, owning user reference. -/
structure Contact where
  id : Nat
  first_name : String
  last_name : String
  email : String
  phone_number : Option String
  birthday : Option Nat
  additional_info : Option String
  owner_id : Nat
deriving DecidableEq, Repr

/-- Payload of a contact create/update request, from schemas.ContactCreate. -/
structure ContactCreate where
  first_name : String
  last_name : String
  email : String
  phone_number : Option String
  birthday : Option Nat
  additional_info : Option String
deriving DecidableEq, Repr

/-- The backing store: the users table and the contacts table. -/
structure DB where
  users : List User
  contacts : List Contact
deriving DecidableEq, Repr

/-- HTTPException as raised by the handlers: status code, detail message,
    optional WWW-Authenticate header value. -/
structure HTTPException where
  status_code : Nat
  detail : String
  wwwAuthenticate : Option String
deriving DecidableEq, Repr

/-- The credentials_exception of main.py lines 21-25. -/
def credentials_exception : HTTPException :=
  ⟨401, "Could not validate credentials", some "Bearer"⟩

/-- Modelled from the spec: crud.get_user_by_email looks up the User by
    email (spec 4.3 "looks up the User by subject (email)"). -/
def get_user_by_email (db : DB) (email : String) : Option User :=
  db.users.find? (fun u => u.email = email)

/-- Modelled from the spec: the Credential Verifier's hash(password)
    (spec 4.1); an injective one-way hash, idealized. -/
def hash_password (password : String) : String :=
  "hashed$" ++ password

/-- Modelled from the spec: the Credential Verifier's verify(password, hash)
    (spec 4.1): "No error path beyond mismatch". -/
def verify_password (plain stored : String) : Bool :=
  stored = hash_password plain

/-- Modelled from the spec: crud.authenticate_user finds the user by the
    given username (email) and checks the password against the stored hash. -/
def authenticate_user (db : DB) (username password : String) : Option User :=
  match get_user_by_email db username with
  | none => none
  | some u => if verify_password password u.hashed_password then some u else none

/-- Modelled from the spec: crud.create_user stores a new user with a fresh
    identifier, the hashed password and the active flag set. -/
def crud_create_user (db : DB) (email password : String) : User × DB :=
  let u : User := ⟨db.users.length + 1, email, hash_password password, true⟩
  (u, ⟨db.users ++ [u], db.contacts⟩)

/-- Modelled from the spec: crud.get_contacts pages through the global
    contacts table with skip/limit; it receives no user (main.py line 65
    passes only skip and limit). -/
def get_contacts (db : DB) (skip limit : Nat) : List Contact :=
  (db.contacts.drop skip).take limit

/-- Modelled from the spec: crud.get_contact fetches the contact with the
    given identifier. -/
def get_contact (db : DB) (contact_id : Nat) : Option Contact :=
  db.contacts.find? (fun c => c.id = contact_id)

/-- Applying a ContactCreate payload to an existing contact record keeps
    the identifier and the owner reference and replaces the data fields. -/
def applyUpdate (c : ContactCreate) (k : Contact) : Contact :=
  ⟨k.id, c.first_name, c.last_name, c.email, c.phone_number, c.birthday,
   c.additional_info, k.owner_id⟩

/-- Modelled from the spec: crud.update_contact overwrites the fields of the
    contact with the given identifier. -/
def crud_update_contact (db : DB) (c : ContactCreate) (contact_id : Nat) : DB :=
  ⟨db.users, db.contacts.map (fun k => if k.id = contact_id then applyUpdate c k else k)⟩

/-- Modelled from the spec: crud.delete_contact removes the contact with the
    given identifier. -/
def crud_delete_contact (db : DB) (contact_id : Nat) : DB :=
  ⟨db.users, db.contacts.filter (fun k => k.id ≠ contact_id)⟩

/-- Whether the pattern q occurs at the front of s. -/
def charsPre : List Char → List Char → Bool
  | [], _ => true
  | _ :: _, [] => false
  | a :: as, b :: bs => a = b && charsPre as bs

/-- Whether the pattern q occurs anywhere inside s. -/
def charsOccur (q : List Char) : List Char → Bool
  | [] => charsPre q []
  | b :: bs => charsPre q (b :: bs) || charsOccur q bs

/-- Modelled from the spec: crud.search_contacts matches the query against
    first name, last name or email over the global contacts table; it
    receives no user (main.py line 93 passes only the query). -/
def crud_search_contacts (db : DB) (query : String) : List Contact :=
  db.contacts.filter (fun c =>
    charsOccur query.data c.first_name.data ||
    charsOccur query.data c.last_name.data ||
    charsOccur query.data c.email.data)

/-- Whether a birthday (a day index) falls within the next 7 days of today. -/
def birthdayInWindow (today : Nat) (b : Option Nat) : Bool :=
  match b with
  | none => false
  | some d => today ≤ d && d ≤ today + 7

/-- Modelled from the spec: crud.get_upcoming_birthdays selects, from the
    global contacts table, the contacts whose birthday falls within the
    next 7 days; it receives no user (main.py line 99). -/
def crud_get_upcoming_birthdays (db : DB) (today : Nat) : List Contact :=
  db.contacts.filter (fun c => birthdayInWindow today c.birthday)

/-- Modelled from the spec: auth.SECRET_KEY, the server secret. -/
def SECRET_KEY : String := "server-secret"

/-- Modelled from the spec: auth.ACCESS_TOKEN_EXPIRE_MINUTES, the access
    token's time to live ("short-lived credential"). -/
def ACCESS_TOKEN_EXPIRE_MINUTES : Nat := 30

/-- Modelled from the spec: the refresh token's time to live
    ("longer-lived credential used to obtain new access tokens"). -/
def REFRESH_TOKEN_EXPIRE_MINUTES : Nat := 10080

/-- Modelled from the spec: auth.create_access_token issues a signed access
    token with the given subject and expiry now + expires_delta
    (spec 4.2 issue_access(subject, ttl)). -/
def create_access_token (sub : String) (now expires_delta : Nat) : JWTToken :=
  let p : Payload := ⟨some sub, now + expires_delta, TokenType.access⟩
  ⟨p, signPayload SECRET_KEY p⟩

/-- Modelled from the spec: auth.create_refresh_token issues a signed
    refresh token with the given subject (spec 4.2 issue_refresh(subject)). -/
def create_refresh_token (sub : String) (now : Nat) : JWTToken :=
  let p : Payload := ⟨some sub, now + REFRESH_TOKEN_EXPIRE_MINUTES, TokenType.refresh⟩
  ⟨p, signPayload SECRET_KEY p⟩

/-- get_current_user, main.py lines 20-37: decode the bearer token, read
    the "sub" claim, look the user up by that email; any failure raises
    the credentials_exception. -/
def get_current_user (db : DB) (now : Nat) (token : JWTToken) :
    Except HTTPException User :=
  match jwtDecode SECRET_KEY now token with
  | none => Except.error credentials_exception
  | some payload =>
    match payload.sub with
    | none => Except.error credentials_exception
    | some email =>
      match get_user_by_email db email with
      | none => Except.error credentials_exception
      | some user => Except.ok user

/-- The route decorator of POST /users/ sets this success status
    (main.py line 40). -/
def create_user_status_code : Nat := 201

/-- create_user, main.py lines 40-45: 409 when a user with that email
    already exists, otherwise store and return the new user. -/
def create_user (db : DB) (email password : String) :
    Except HTTPException User × DB :=
  match get_user_by_email db email with
  | some _ => (Except.error ⟨409, "Email already registered", none⟩, db)
  | none =>
    let r := crud_create_user db email password
    (Except.ok r.1, r.2)

/-- The response body of POST /token, from schemas.Token:
    access token, refresh token, token type. -/
structure TokenResponse where
  access_token : JWTToken
  refresh_token : JWTToken
  token_type : String
deriving DecidableEq, Repr

/-- login_for_access_token, main.py lines 48-60: authenticate, 401 on
    failure, otherwise issue an access token and a refresh token for the
    user's email with token_type "bearer". -/
def login_for_access_token (db : DB) (now : Nat) (username password : String) :
    Except HTTPException TokenResponse :=
  match authenticate_user db username password with
  | none =>
    Except.error ⟨401, "Incorrect email or password", some "Bearer"⟩
  | some user =>
    Except.ok ⟨create_access_token user.email now ACCESS_TOKEN_EXPIRE_MINUTES,
               create_refresh_token user.email now, "bearer"⟩

/-- read_contacts, main.py lines 63-66: page through the global contacts
    table, then keep only the caller's contacts. -/
def read_contacts (db : DB) (current_user : User) (skip limit : Nat) :
    List Contact :=
  (get_contacts db skip limit).filter (fun c => c.owner_id = current_user.id)

/-- The 404 raised by PUT /contacts/ (main.py line 78). -/
def update_contact_404 : HTTPException :=
  ⟨404, "Contact not found or not authorized to update this contact", none⟩

/-- update_contact, main.py lines 74-79: 404 when the contact is missing or
    not owned by the caller (the store untouched), otherwise update it. -/
def update_contact (db : DB) (current_user : User) (contact_id : Nat)
    (contact : ContactCreate) : Except HTTPException Contact × DB :=
  match get_contact db contact_id with
  | none => (Except.error update_contact_404, db)
  | some k =>
    if k.owner_id ≠ current_user.id then
      (Except.error update_contact_404, db)
    else
      (Except.ok (applyUpdate contact k), crud_update_contact db contact contact_id)

/-- The 404 raised by DELETE /contacts/ (main.py line 86). -/
def delete_contact_404 : HTTPException :=
  ⟨404, "Contact not found or not authorized to delete this contact", none⟩

/-- delete_contact, main.py lines 82-88: 404 when the contact is missing or
    not owned by the caller (the store untouched), otherwise delete it. -/
def delete_contact (db : DB) (current_user : User) (contact_id : Nat) :
    Except HTTPException String × DB :=
  match get_contact db contact_id with
  | none => (Except.error delete_contact_404, db)
  | some k =>
    if k.owner_id ≠ current_user.id then
      (Except.error delete_contact_404, db)
    else
      (Except.ok "Contact deleted successfully", crud_delete_contact db contact_id)

/-- search_contacts, main.py lines 91-94: run the global search, then keep
    only the caller's contacts. -/
def search_contacts (db : DB) (current_user : User) (query : String) :
    List Contact :=
  (crud_search_contacts db query).filter (fun c => c.owner_id = current_user.id)

/-- upcoming_birthdays, main.py lines 97-100: run the global birthday-window
    query, then keep only the caller's contacts. -/
def upcoming_birthdays (db : DB) (current_user : User) (today : Nat) :
    List Contact :=
  (crud_get_upcoming_birthdays db today).filter (fun c => c.owner_id = current_user.id)

/-- A contact is absent or owned by someone other than u: the failure
    condition of the PUT and DELETE guards (main.py lines 77 and 85). -/
def contact_missing_or_foreign (db : DB) (u : User) (cid : Nat) : Prop :=
  get_contact db cid = none ∨
    ∃ k, get_contact db cid = some k ∧ k.owner_id ≠ u.id

/-- A sample registered user. -/
def uAlice : User := ⟨1, "alice@example.com", hash_password "wonderland", true⟩

/-- A second sample registered user. -/
def uBob : User := ⟨2, "bob@example.com", hash_password "builder", true⟩

/-- A contact owned by uAlice, with an upcoming birthday. -/
def cAliceContact : Contact :=
  ⟨1, "Ann", "Friend", "ann@example.com", none, some 3, none, 1⟩

/-- A contact owned by uBob. -/
def cBobContact : Contact :=
  ⟨2, "Bill", "Mate", "bill@example.com", none, none, none, 2⟩

/-- A second contact owned by uAlice. -/
def cAliceContact2 : Contact :=
  ⟨3, "Ada", "Pal", "ada@example.com", none, none, none, 1⟩

/-- A sample store with two users and a contact of each. -/
def dbDemo : DB := ⟨[uAlice, uBob], [cBobContact, cAliceContact]⟩

/-- A store where uBob's contact precedes two of uAlice's contacts. -/
def dbPage : DB := ⟨[uAlice, uBob], [cBobContact, cAliceContact, cAliceContact2]⟩

/-- A sample contact update payload. -/
def payloadDemo : ContactCreate :=
  ⟨"New", "Name", "new@example.com", none, none, none⟩

/-- Claim C1: a caller never reads, updates or deletes a contact owned by a
    different user: read_contacts filters to the caller's owner_id, and
    update_contact and delete_contact answer the 404 error and leave the
    store unchanged whenever the addressed contact is owned by someone else. -/
theorem C1_owner_scoping (db : DB) (u : User) (c : Contact)
    (h : c.owner_id ≠ u.id) :
    (∀ skip limit, c ∉ read_contacts db u skip limit) ∧
    (∀ cid payload, get_contact db cid = some c →
        update_contact db u cid payload = (Except.error update_contact_404, db)) ∧
    (∀ cid, get_contact db cid = some c →
        delete_contact db u cid = (Except.error delete_contact_404, db)) := by
  refine ⟨?_, ?_, ?_⟩
  · intro skip limit hmem
    have hp := List.of_mem_filter hmem
    rw [decide_eq_true_eq] at hp
    exact h hp
  · intro cid payload hc
    simp [update_contact, hc, h]
  · intro cid hc
    simp [delete_contact, hc, h]

/-- Witness for C1 on a concrete store: uBob's contact is invisible and
    immutable to uAlice. -/
theorem C1_owner_scoping_witness :
    cBobContact.owner_id ≠ uAlice.id ∧
    get_contact dbDemo 2 = some cBobContact ∧
    cBobContact ∉ read_contacts dbDemo uAlice 0 10 ∧
    update_contact dbDemo uAlice 2 payloadDemo =
      (Except.error update_contact_404, dbDemo) ∧
    delete_contact dbDemo uAlice 2 =
      (Except.error delete_contact_404, dbDemo) := by
  have h := C1_owner_scoping dbDemo uAlice cBobContact (by decide)
  exact ⟨by decide, by decide, h.1 0 10, h.2.1 2 payloadDemo (by decide),
    h.2.2 2 (by decide)⟩

/-- Helper: get_current_user succeeds on a token carrying a correct
    signature, an unexpired claim set, and the email of a stored user. -/
theorem get_current_user_of_valid (db : DB) (now : Nat) (p : Payload)
    (em : String) (u : User) (hexp : now < p.exp) (hsub : p.sub = some em)
    (hu : get_user_by_email db em = some u) :
    get_current_user db now ⟨p, signPayload SECRET_KEY p⟩ = Except.ok u := by
  simp [get_current_user, jwtDecode, hexp, hsub, hu]

/-- Helper: a successful authenticate_user call returns a user that
    get_user_by_email finds under its own email. -/
theorem authenticate_user_found (db : DB) (username password : String)
    (u : User) (hauth : authenticate_user db username password = some u) :
    get_user_by_email db u.email = some u := by
  have hu : get_user_by_email db username = some u := by
    unfold authenticate_user at hauth
    split at hauth
    · exact absurd hauth (by simp)
    · rename_i v heq
      split at hauth
      · simp only [Option.some.injEq] at hauth
        rw [hauth] at heq
        exact heq
      · exact absurd hauth (by simp)
  have hemail : u.email = username := by
    unfold get_user_by_email at hu
    have hp := List.find?_some hu
    rw [decide_eq_true_eq] at hp
    exact hp
  rw [hemail]
  exact hu

/-- Claim C2: a token issued by POST /token for the user the credentials
    authenticate resolves, through get_current_user, to exactly that user at
    any instant before the token's expiry. -/
theorem C2_token_resolves_to_issuer (db : DB) (username password : String)
    (now t : Nat) (resp : TokenResponse) (u : User)
    (hauth : authenticate_user db username password = some u)
    (hlogin : login_for_access_token db now username password = Except.ok resp)
    (ht : t < now + ACCESS_TOKEN_EXPIRE_MINUTES) :
    get_current_user db t resp.access_token = Except.ok u := by
  have hu2 : get_user_by_email db u.email = some u :=
    authenticate_user_found db username password u hauth
  have hresp : resp =
      ⟨create_access_token u.email now ACCESS_TOKEN_EXPIRE_MINUTES,
       create_refresh_token u.email now, "bearer"⟩ := by
    unfold login_for_access_token at hlogin
    rw [hauth] at hlogin
    simp only [Except.ok.injEq] at hlogin
    exact hlogin.symm
  rw [hresp]
  exact get_current_user_of_valid db t
    ⟨some u.email, now + ACCESS_TOKEN_EXPIRE_MINUTES, TokenType.access⟩
    u.email u ht rfl hu2

/-- Witness for C2 on a concrete store: logging in as uAlice yields an
    access token that resolves back to uAlice while unexpired. -/
theorem C2_token_resolves_to_issuer_witness :
    authenticate_user dbDemo "alice@example.com" "wonderland" = some uAlice ∧
    login_for_access_token dbDemo 1000 "alice@example.com" "wonderland" =
      Except.ok ⟨create_access_token "alice@example.com" 1000 ACCESS_TOKEN_EXPIRE_MINUTES,
                 create_refresh_token "alice@example.com" 1000, "bearer"⟩ ∧
    1001 < 1000 + ACCESS_TOKEN_EXPIRE_MINUTES ∧
    get_current_user dbDemo 1001
      (create_access_token "alice@example.com" 1000 ACCESS_TOKEN_EXPIRE_MINUTES) =
      Except.ok uAlice := by
  refine ⟨by decide, rfl, by decide, ?_⟩
  exact C2_token_resolves_to_issuer dbDemo "alice@example.com" "wonderland"
    1000 1001
    ⟨create_access_token "alice@example.com" 1000 ACCESS_TOKEN_EXPIRE_MINUTES,
     create_refresh_token "alice@example.com" 1000, "bearer"⟩
    uAlice (by decide) rfl (by decide)

/-- Claim C3: an expired token, or one whose signature does not verify for
    its claim set under the server secret, never resolves to any user:
    get_current_user answers the 401 credentials_exception. -/
theorem C3_expired_or_tampered (db : DB) (now : Nat) (t : JWTToken)
    (h : t.payload.exp ≤ now ∨ t.sig ≠ signPayload SECRET_KEY t.payload) :
    get_current_user db now t = Except.error credentials_exception := by
  have hdec : jwtDecode SECRET_KEY now t = none := by
    unfold jwtDecode
    rcases h with h | h
    · rw [if_neg]
      rintro ⟨_, h2⟩
      omega
    · rw [if_neg]
      rintro ⟨h1, _⟩
      exact h h1
  unfold get_current_user
  rw [hdec]

/-- Witness for C3: an access token issued at instant 0 is rejected at
    instant 100, past its 30-minute expiry. -/
theorem C3_expired_or_tampered_witness :
    ((create_access_token "alice@example.com" 0 ACCESS_TOKEN_EXPIRE_MINUTES).payload.exp ≤ 100 ∨
      (create_access_token "alice@example.com" 0 ACCESS_TOKEN_EXPIRE_MINUTES).sig ≠
        signPayload SECRET_KEY (create_access_token "alice@example.com" 0 ACCESS_TOKEN_EXPIRE_MINUTES).payload) ∧
    get_current_user dbDemo 100 (create_access_token "alice@example.com" 0 ACCESS_TOKEN_EXPIRE_MINUTES) =
      Except.error credentials_exception :=
  ⟨Or.inl (by decide),
   C3_expired_or_tampered dbDemo 100
     (create_access_token "alice@example.com" 0 ACCESS_TOKEN_EXPIRE_MINUTES)
     (Or.inl (by decide))⟩

/-- Claim C4: every verification failure collapses to the one 401 response
    carrying WWW-Authenticate Bearer, and get_current_user returns a user
    exactly when decoding succeeds, a subject is present, and a user with
    that email exists in the store. -/
theorem C4_unauthorized_collapse (db : DB) (now : Nat) (t : JWTToken) :
    (get_current_user db now t = Except.error credentials_exception ∧
        credentials_exception.status_code = 401 ∧
        credentials_exception.wwwAuthenticate = some "Bearer") ∨
    (∃ p em u, jwtDecode SECRET_KEY now t = some p ∧ p.sub = some em ∧
        get_user_by_email db em = some u ∧
        get_current_user db now t = Except.ok u) := by
  rcases hd : jwtDecode SECRET_KEY now t with _ | p
  · left
    exact ⟨by simp [get_current_user, hd], rfl, rfl⟩
  · rcases hs : p.sub with _ | em
    · left
      exact ⟨by simp [get_current_user, hd, hs], rfl, rfl⟩
    · rcases hup : get_user_by_email db em with _ | u
      · left
        exact ⟨by simp [get_current_user, hd, hs, hup], rfl, rfl⟩
      · right
        exact ⟨p, em, u, rfl, hs, hup,
          by simp [get_current_user, hd, hs, hup]⟩

/-- Claim C5: registering an email that is already stored always answers
    409 and leaves the store unchanged; a fresh email creates the user,
    with the route's 201 success status. -/
theorem C5_registration_conflict (db : DB) (email password : String) :
    ((∃ u0, get_user_by_email db email = some u0) →
        create_user db email password =
          (Except.error ⟨409, "Email already registered", none⟩, db)) ∧
    (get_user_by_email db email = none →
        ∃ u, create_user db email password =
            (Except.ok u, ⟨db.users ++ [u], db.contacts⟩) ∧
          create_user_status_code = 201) := by
  constructor
  · rintro ⟨u0, h⟩
    simp [create_user, h]
  · intro h
    refine ⟨⟨db.users.length + 1, email, hash_password password, true⟩, ?_, rfl⟩
    simp [create_user, crud_create_user, h]

/-- Witness for C5: re-registering uAlice's email conflicts; a fresh email
    is stored. -/
theorem C5_registration_conflict_witness :
    (∃ u0, get_user_by_email dbDemo "alice@example.com" = some u0) ∧
    create_user dbDemo "alice@example.com" "other" =
      (Except.error ⟨409, "Email already registered", none⟩, dbDemo) ∧
    get_user_by_email dbDemo "carol@example.com" = none ∧
    (∃ u, create_user dbDemo "carol@example.com" "pw" =
        (Except.ok u, ⟨dbDemo.users ++ [u], dbDemo.contacts⟩) ∧
      create_user_status_code = 201) := by
  refine ⟨⟨uAlice, by decide⟩, ?_, by decide, ?_⟩
  · exact (C5_registration_conflict dbDemo "alice@example.com" "other").1
      ⟨uAlice, by decide⟩
  · exact (C5_registration_conflict dbDemo "carol@example.com" "pw").2 (by decide)

/-- Claim C6: PUT and DELETE on a contact answer the 404 error, with the
    store unchanged, exactly when the contact is absent or owned by a
    different user. -/
theorem C6_mutation_404_iff (db : DB) (u : User) (cid : Nat)
    (payload : ContactCreate) :
    (contact_missing_or_foreign db u cid ↔
        update_contact db u cid payload = (Except.error update_contact_404, db)) ∧
    (contact_missing_or_foreign db u cid ↔
        delete_contact db u cid = (Except.error delete_contact_404, db)) := by
  constructor
  · constructor
    · rintro (h | ⟨k, hk, hne⟩)
      · simp [update_contact, h]
      · simp [update_contact, hk, hne]
    · intro h
      rcases hg : get_contact db cid with _ | k
      · exact Or.inl hg
      · by_cases hne : k.owner_id = u.id
        · exfalso
          simp [update_contact, hg, hne] at h
        · exact Or.inr ⟨k, hg, hne⟩
  · constructor
    · rintro (h | ⟨k, hk, hne⟩)
      · simp [delete_contact, h]
      · simp [delete_contact, hk, hne]
    · intro h
      rcases hg : get_contact db cid with _ | k
      · exact Or.inl hg
      · by_cases hne : k.owner_id = u.id
        · exfalso
          simp [delete_contact, hg, hne] at h
        · exact Or.inr ⟨k, hg, hne⟩

/-- Claim C7: the search route and the upcoming-birthdays route return only
    contacts owned by the caller. -/
theorem C7_query_owner_scoped (db : DB) (u : User) (q : String) (today : Nat)
    (c : Contact) :
    (c ∈ search_contacts db u q → c.owner_id = u.id) ∧
    (c ∈ upcoming_birthdays db u today → c.owner_id = u.id) := by
  constructor
  · intro hmem
    have hp := List.of_mem_filter hmem
    rwa [decide_eq_true_eq] at hp
  · intro hmem
    have hp := List.of_mem_filter hmem
    rwa [decide_eq_true_eq] at hp

/-- Witness for C7: a concrete search hit and birthday-window hit, both
    owned by the caller. -/
theorem C7_query_owner_scoped_witness :
    cAliceContact ∈ search_contacts dbDemo uAlice "Ann" ∧
    cAliceContact ∈ upcoming_birthdays dbDemo uAlice 0 ∧
    cAliceContact.owner_id = uAlice.id :=
  ⟨by decide, by decide,
   (C7_query_owner_scoped dbDemo uAlice "Ann" 0 cAliceContact).1 (by decide)⟩

/-- Claim C8: POST /token returns access and refresh tokens with token_type
    bearer when the credentials authenticate a user, and answers 401 with
    no tokens when they do not. -/
theorem C8_login_outcomes (db : DB) (now : Nat) (username password : String) :
    (∃ u, authenticate_user db username password = some u ∧
        login_for_access_token db now username password =
          Except.ok ⟨create_access_token u.email now ACCESS_TOKEN_EXPIRE_MINUTES,
                     create_refresh_token u.email now, "bearer"⟩) ∨
    (authenticate_user db username password = none ∧
        login_for_access_token db now username password =
          Except.error ⟨401, "Incorrect email or password", some "Bearer"⟩) := by
  rcases h : authenticate_user db username password with _ | u
  · right
    exact ⟨rfl, by simp [login_for_access_token, h]⟩
  · left
    exact ⟨u, rfl, by simp [login_for_access_token, h]⟩

/-- Claim C9: GET /contacts/ paginates the global contacts table before
    filtering by ownership: it returns at most limit contacts, and on some
    stores it returns fewer than limit of the caller's contacts although
    the caller owns at least limit contacts beyond skip. -/
theorem C9_pagination_before_ownership :
    (∀ db u skip limit, (read_contacts db u skip limit).length ≤ limit) ∧
    (∃ db u skip limit,
        limit ≤ ((db.contacts.drop skip).filter
          (fun c => c.owner_id = u.id)).length ∧
        (read_contacts db u skip limit).length < limit) := by
  constructor
  · intro db u skip limit
    calc (read_contacts db u skip limit).length
        ≤ (get_contacts db skip limit).length := List.length_filter_le _ _
      _ ≤ limit := List.length_take_le _ _
  · exact ⟨dbPage, uAlice, 0, 2, by decide, by decide⟩

/-- Claim C10: get_current_user never inspects the token-type claim: a
    correctly signed, unexpired token whose subject is a stored user's
    email resolves to that user for either token type, refresh included. -/
theorem C10_token_type_ignored (db : DB) (u : User) (email : String)
    (exp now : Nat) (ty : TokenType)
    (hexp : now < exp) (hu : get_user_by_email db email = some u) :
    get_current_user db now
      ⟨⟨some email, exp, ty⟩, signPayload SECRET_KEY ⟨some email, exp, ty⟩⟩ =
      Except.ok u :=
  get_current_user_of_valid db now ⟨some email, exp, ty⟩ email u hexp rfl hu

/-- Witness for C10: a refresh token for uAlice is accepted by
    get_current_user. -/
theorem C10_token_type_ignored_witness :
    (5 : Nat) < 0 + REFRESH_TOKEN_EXPIRE_MINUTES ∧
    get_user_by_email dbDemo "alice@example.com" = some uAlice ∧
    (create_refresh_token "alice@example.com" 0).payload.typ = TokenType.refresh ∧
    get_current_user dbDemo 5 (create_refresh_token "alice@example.com" 0) =
      Except.ok uAlice := by
  refine ⟨by decide, by decide, rfl, ?_⟩
  exact C10_token_type_ignored dbDemo uAlice "alice@example.com"
    (0 + REFRESH_TOKEN_EXPIRE_MINUTES) 5 TokenType.refresh (by decide) (by decide)

end ContactsApi
